import Mathlib

/-
Shallow embedding of src/toolbox_az/general/flags.py: a wrapper around
argparse.ArgumentParser that merges configuration-file data, caller-supplied
default namespaces/dictionaries and command-line tokens, plus the singleton
wrapper around it.  Python exceptions are modelled by an explicit error type,
the filesystem by a partial map from paths to file contents, and the outcome
of each third-party decoding library (pickle, yaml, json) on a given file is
recorded as part of the file-content model.
-/

namespace ToolboxFlags

/-- Python values as they occur in argument defaults, config-file contents and
parse results. -/
inductive PyObj where
  | vNone
  | vStr (s : String)
  | vInt (n : Int)
  | vList (xs : List PyObj)
  | vDict (entries : List (String × PyObj))

/-- Python truthiness, `bool(x)`, for the modelled values. -/
def pyTruthy : PyObj → Bool
  | .vNone => false
  | .vStr s => !s.isEmpty
  | .vInt n => !(n == 0)
  | .vList xs => !xs.isEmpty
  | .vDict d => !d.isEmpty

/-- Whether a Python value is a dict (`isinstance(x, dict)`). -/
def isDict : PyObj → Bool
  | .vDict _ => true
  | _ => false

/-- Truthiness of an optional value: Python `None` and falsy values both fail
an `if x:` test. -/
def optTruthy : Option PyObj → Bool
  | Option.none => false
  | some v => pyTruthy v

/-- A Python dict with string keys, modelled as an association list in
insertion order (Python dicts preserve insertion order). -/
abbrev Dict := List (String × PyObj)

/-- `d[k] = v`: overwrite in place if the key exists, else append. -/
def dictSet (d : Dict) (k : String) (v : PyObj) : Dict :=
  if d.any (fun p => p.1 == k) then
    d.map (fun p => if p.1 == k then (k, v) else p)
  else d ++ [(k, v)]

/-- `d.update(src)`: set every key of `src`, in order, into `d`. -/
def dictUpdate (d src : Dict) : Dict :=
  src.foldl (fun acc kv => dictSet acc kv.1 kv.2) d

/-- `d.get(k)` / `d[k]` lookup. -/
def dictGet (d : Dict) (k : String) : Option PyObj :=
  (d.find? (fun p => p.1 == k)).map (fun p => p.2)

/-- The Python exception classes that can arise along the modelled paths. -/
inductive PyExc where
  | valueError
  | typeError
  | unpicklingError
  | eofError
  | scannerError
  | parserError
  | fileNotFoundError
  | attributeError
  | indexError
  | systemExit
  | recursionError
deriving DecidableEq

/-- `d.update(v)` for an arbitrary Python value `v`: a dict argument merges
key by key; a non-mapping argument raises (TypeError for non-iterables; the
exact class for exotic iterables of non-pairs is elided as TypeError). -/
def dictUpdateObj (d : Dict) (v : PyObj) : Except PyExc Dict :=
  match v with
  | .vDict src => Except.ok (dictUpdate d src)
  | _ => Except.error PyExc.typeError

/-- Model of one file's content.  Since the decoders hand the opened file to
third-party libraries, the model records, for each library, the outcome of
decoding this content: `pickleResult` is the outcome of `pickle.load` on the
byte stream (for example, `EOFError` on an empty file, `UnpicklingError` on
text that is not a pickle), `yamlResult` the outcome of `yaml.load` (PyYAML of
the code's era, where `yaml.load(stream)` parses with the default loader and
returns `None` for an empty document), and `lines` is
`content.read().splitlines()` for the plain-text fallback. -/
structure FileContent where
  pickleResult : Except PyExc PyObj
  yamlResult : Except PyExc PyObj
  lines : List String

/-- The filesystem: a partial map from path to content; `open` on an absent
path raises FileNotFoundError. -/
abbrev FS := String → Option FileContent

/-- Exception classes caught by `try_pickle_parse`:
`except (ValueError, TypeError, pickle.UnpicklingError)`. -/
def pickleCaught : List PyExc :=
  [PyExc.valueError, PyExc.typeError, PyExc.unpicklingError]

/-- Exception classes caught by `try_yml_parse`:
`except (ValueError, TypeError, yaml.scanner.ScannerError)`. -/
def yamlCaught : List PyExc :=
  [PyExc.valueError, PyExc.typeError, PyExc.scannerError]

/-- `try_pickle_parse(file_path)`: open the file and `pickle.load` it,
returning the parsed object, or None when one of the caught exception classes
is raised.  Exceptions outside the caught tuple (and the `open` failure)
propagate. -/
def try_pickle_parse (fs : FS) (file_path : String) : Except PyExc (Option PyObj) :=
  match fs file_path with
  | Option.none => Except.error PyExc.fileNotFoundError
  | some c =>
    match c.pickleResult with
    | Except.ok v => Except.ok (some v)
    | Except.error e =>
      if e ∈ pickleCaught then Except.ok Option.none else Except.error e

/-- `try_yml_parse(file_path)`: open the file and `yaml.load` it; a non-dict
result is converted to None inside the `try`; caught exception classes give
None; other exceptions propagate. -/
def try_yml_parse (fs : FS) (file_path : String) : Except PyExc (Option PyObj) :=
  match fs file_path with
  | Option.none => Except.error PyExc.fileNotFoundError
  | some c =>
    match c.yamlResult with
    | Except.ok v => Except.ok (if isDict v then some v else Option.none)
    | Except.error e =>
      if e ∈ yamlCaught then Except.ok Option.none else Except.error e

/-- `try_json_parse(file_path)`: the source passes the opened file object
itself to `json.loads` (`json.loads(json_file)` rather than
`json.loads(json_file.read())`); `json.loads` requires str/bytes and raises
TypeError on a file object, which the surrounding
`except (ValueError, TypeError)` swallows — so for every existing file this
decoder returns None. -/
def try_json_parse (fs : FS) (file_path : String) : Except PyExc (Option PyObj) :=
  match fs file_path with
  | Option.none => Except.error PyExc.fileNotFoundError
  | some _ => Except.ok Option.none

/-- `process_dict(dict_path)`: try pickle, then (if the result is falsy) yaml,
then (if still falsy) json, and return the last attempt's result. -/
def process_dict (fs : FS) (dict_path : String) : Except PyExc (Option PyObj) := do
  let d1 ← try_pickle_parse fs dict_path
  let d2 ← if optTruthy d1 then pure d1 else try_yml_parse fs dict_path
  let d3 ← if optTruthy d2 then pure d2 else try_json_parse fs dict_path
  return d3

/-- One declared argument: `add_argument("--name", default=...)`.  Only
optional `--name value` store actions are declared by the modelled scenarios. -/
structure Param where
  name : String
  default : PyObj

/-- First character of a string; `s[0]` raises IndexError on an empty string. -/
def headChar (s : String) : Except PyExc Char :=
  match s.data with
  | [] => Except.error PyExc.indexError
  | ch :: _ => Except.ok ch

/-- `s[1:]`. -/
def strTail (s : String) : String := String.mk s.data.tail

/-- Membership of a character in the marker-character collection
(`arg[0] in self.fromfile_prefix_chars`). -/
def charIn (pfx : List Char) (ch : Char) : Bool :=
  pfx.any (fun c => c == ch)

/-- Default `ArgumentParser.convert_arg_line_to_args`: each line of an
argument file is one token (the line is not split at spaces). -/
def convert_arg_line_to_args (arg_line : String) : List String := [arg_line]

/-- A Python-style list comprehension whose predicate may raise. -/
def filterExcept (p : String → Except PyExc Bool) : List String → Except PyExc (List String)
  | [] => Except.ok []
  | a :: rest => do
    let keep ← p a
    let rest2 ← filterExcept p rest
    return if keep then a :: rest2 else rest2

/-- The two list comprehensions at the top of `MyArguments.parse_args`, which
index `arg[0]` unguarded: the first comprehension collects marker-prefixed
tokens, the second the remaining tokens; an empty-string token raises
IndexError. -/
def partitionArgs (pfx : List Char) (args : List String) :
    Except PyExc (List String × List String) := do
  let cfgs ← filterExcept (fun a => (headChar a).map (fun ch => charIn pfx ch)) args
  let others ← filterExcept (fun a => (headChar a).map (fun ch => !charIn pfx ch)) args
  return (cfgs, others)

/-- `MyArguments._expand_arg_strings_from_file`: open the file, turn each line
into tokens via `convert_arg_line_to_args`, recursively re-expand them with
`_read_args_from_files` (passed in as `recur`), and append the expansion to
the tokens collected so far.  A failing `open` raises (the `with open`
statement sits outside the internal `try`). -/
def expand_arg_strings_from_file (fs : FS)
    (recur : Dict → List String → Dict × Except PyExc (List String))
    (path : String) (cfd : Dict) (sofar : List String) :
    Dict × Except PyExc (List String) :=
  match fs path with
  | Option.none => (cfd, Except.error PyExc.fileNotFoundError)
  | some content =>
    let fileTokens :=
      content.lines.foldl (fun acc l => acc ++ convert_arg_line_to_args l) []
    match recur cfd fileTokens with
    | (cfd2, Except.error e) => (cfd2, Except.error e)
    | (cfd2, Except.ok expanded) => (cfd2, Except.ok (sofar ++ expanded))

/-- One iteration of the loop in `MyArguments._read_args_from_files`: an empty
or non-marker token passes through; a marker token is stripped and handed to
`process_dict`; a truthy `process_dict` result is merged into
`config_files_data`; otherwise the file is expanded as a line-oriented text
file.  A previously raised exception short-circuits the remaining iterations. -/
def rafStep (fs : FS) (pfx : List Char)
    (recur : Dict → List String → Dict × Except PyExc (List String))
    (acc : Dict × Except PyExc (List String)) (arg : String) :
    Dict × Except PyExc (List String) :=
  match acc with
  | (cfd, Except.error e) => (cfd, Except.error e)
  | (cfd, Except.ok sofar) =>
    match arg.data with
    | [] => (cfd, Except.ok (sofar ++ [arg]))
    | ch :: _ =>
      if charIn pfx ch then
        match process_dict fs (strTail arg) with
        | Except.error e => (cfd, Except.error e)
        | Except.ok config_file_args =>
          match config_file_args with
          | some v =>
            if pyTruthy v then
              match dictUpdateObj cfd v with
              | Except.error e => (cfd, Except.error e)
              | Except.ok cfd2 => (cfd2, Except.ok sofar)
            else expand_arg_strings_from_file fs recur (strTail arg) cfd sofar
          | Option.none => expand_arg_strings_from_file fs recur (strTail arg) cfd sofar
      else (cfd, Except.ok (sofar ++ [arg]))

/-- `MyArguments._read_args_from_files(arg_strings)` threading the mutable
`self.config_files_data` explicitly.  The fuel bounds the file-reference
nesting depth and models Python's recursion limit (a cyclic file reference
raises RecursionError). -/
def read_args_from_files (fs : FS) (pfx : List Char) :
    Nat → Dict → List String → Dict × Except PyExc (List String)
  | 0, cfd, _ => (cfd, Except.error PyExc.recursionError)
  | fuel + 1, cfd, arg_strings =>
    arg_strings.foldl
      (rafStep fs pfx (fun c l => read_args_from_files fs pfx fuel c l))
      (cfd, Except.ok [])

/-- Application of the declared defaults to a namespace, as
`ArgumentParser.parse_known_args` does before parsing: an attribute already
present on the namespace is kept, a missing one is set to the declared
default.  (The automatic help action has a suppressed default and never
reaches the namespace; it is elided.) -/
def applyDefaults (params : List Param) (ns : Dict) : Dict :=
  params.foldl
    (fun acc p => if (dictGet acc p.name).isSome then acc else dictSet acc p.name p.default)
    ns

/-- Whether argparse would refuse a token as the value of an option: value
tokens beginning with the option prefix character are rejected ("expected one
argument", reported through `parser.error`, raising SystemExit).  Argparse's
negative-number exception is outside the model's scope; no modelled scenario
passes a value token beginning with a dash. -/
def looksOptionLike (s : String) : Bool :=
  decide (s.data.head? = some '-')

/-- The token-consumption loop of `ArgumentParser._parse_known_args`,
restricted to the declared `--name value` store actions: a declared option
consumes the next token as its value and sets the attribute; every other
token (unknown option, bare positional with no positionals declared, or a
missing/option-like value) makes `parse_args` report an error, which calls
`parser.error` and raises SystemExit. -/
def parseTokens (params : List Param) : Dict → List String → Except PyExc Dict
  | ns, [] => Except.ok ns
  | ns, t :: rest =>
    match params.find? (fun p => t == "--" ++ p.name) with
    | some p =>
      match rest with
      | [] => Except.error PyExc.systemExit
      | v :: rest2 =>
        if looksOptionLike v then Except.error PyExc.systemExit
        else parseTokens params (dictSet ns p.name (PyObj.vStr v)) rest2
    | Option.none => Except.error PyExc.systemExit

/-- The standard `ArgumentParser.parse_args(self, args, namespace)` as invoked
by `MyArguments`: defaults are applied to the (possibly fresh) namespace, the
token list is expanded through the overridden `_read_args_from_files` (the
parser's `fromfile_prefix_chars` is always set), and the expanded tokens are
parsed.  Returns the updated `config_files_data` next to the outcome. -/
def argumentParser_parse_args (fs : FS) (pfx : List Char) (params : List Param)
    (fuel : Nat) (cfd : Dict) (args : List String) (nsOpt : Option Dict) :
    Dict × Except PyExc Dict :=
  let ns0 := applyDefaults params (nsOpt.getD [])
  match read_args_from_files fs pfx fuel cfd args with
  | (cfd2, Except.error e) => (cfd2, Except.error e)
  | (cfd2, Except.ok arg_strings) =>
    match parseTokens params ns0 arg_strings with
    | Except.error e => (cfd2, Except.error e)
    | Except.ok ns => (cfd2, Except.ok ns)

/-- The caller-supplied `namespace_or_dict_args` argument of
`MyArguments.parse_args`: omitted (None), an `argparse.Namespace` carrying the
given attributes, a plain dict, or any other Python object with the given
truthiness.  A Namespace defines neither `__bool__` nor `__len__`, so it is
always truthy. -/
inductive Overrides where
  | none
  | namespaceObj (attrs : Dict)
  | dict (d : Dict)
  | other (truthy : Bool)

/-- Python truthiness of the overrides argument. -/
def ovTruthy : Overrides → Bool
  | .none => false
  | .namespaceObj _ => true
  | .dict d => !d.isEmpty
  | .other b => b

/-- `MyArguments.process_default_namespace(namespace_or_dict_args)`: a truthy
Namespace argument hits `namespace_or_dict_args._get_kwarg`, and
`argparse.Namespace` has no attribute named `_get_kwarg` (the class provides
the method `_get_kwargs`), so the lookup raises AttributeError unless the
caller stored an attribute of that exact name, in which case its value is fed
to `dict.update`; a truthy dict is merged into `config_files_data`; any other
truthy object raises TypeError; a falsy argument is ignored.  Finally a
namespace built from `config_files_data` is returned when that dict is
nonempty, else None. -/
def process_default_namespace (cfd : Dict) (ov : Overrides) :
    Except PyExc (Dict × Option Dict) := do
  let cfd2 ←
    if ovTruthy ov then
      match ov with
      | Overrides.namespaceObj attrs =>
        match dictGet attrs "_get_kwarg" with
        | Option.none => Except.error PyExc.attributeError
        | some v => dictUpdateObj cfd v
      | Overrides.dict d => Except.ok (dictUpdate cfd d)
      | _ => Except.error PyExc.typeError
    else Except.ok cfd
  if cfd2.isEmpty then return (cfd2, Option.none) else return (cfd2, some cfd2)

/-- The mutable state of a `MyArguments` instance: the marker characters
(source name `fromfile_prefix_chars`; default `["@"]`), the accumulated
`config_files_data` dict, and the cached parse result `self.args`. -/
structure MyArgumentsObj where
  fromfile_chars : List Char
  config_files_data : Dict
  args : Option Dict

/-- `MyArguments.__init__(fromfile_prefix_chars=None)`. -/
def myArguments_init (chars : Option (List Char)) : MyArgumentsObj :=
  { fromfile_chars := chars.getD ['@'], config_files_data := [], args := Option.none }

/-- The loop `for config_file in config_files_args:
ArgumentParser.parse_args(self, args=[config_file])` — each marker token is
pushed alone through a full standard parse run purely for its side effect on
`config_files_data`; the returned namespace is discarded.  An exception stops
the loop and propagates. -/
def configFilesLoop (fs : FS) (pfx : List Char) (params : List Param) (fuel : Nat) :
    Dict → List String → Dict × Option PyExc
  | cfd, [] => (cfd, Option.none)
  | cfd, f :: rest =>
    match argumentParser_parse_args fs pfx params fuel cfd [f] Option.none with
    | (cfd2, Except.error e) => (cfd2, some e)
    | (cfd2, Except.ok _) => configFilesLoop fs pfx params fuel cfd2 rest

/-- `MyArguments.parse_args(args, namespace_or_dict_args)` for an explicit
token list: partition the tokens by marker (unguarded `arg[0]`), run each
marker token through a standard parse (side effect only), build the default
namespace from `config_files_data` and the overrides, then parse the
remaining tokens against it and cache the result in `self.args`.  On any
exception the state mutated so far is kept but `self.args` is untouched. -/
def myArguments_parse_args (fs : FS) (params : List Param) (fuel : Nat)
    (st : MyArgumentsObj) (args : List String) (ov : Overrides) :
    MyArgumentsObj × Except PyExc Dict :=
  match partitionArgs st.fromfile_chars args with
  | Except.error e => (st, Except.error e)
  | Except.ok (config_files_args, other_args) =>
    match configFilesLoop fs st.fromfile_chars params fuel st.config_files_data
        config_files_args with
    | (cfd, some e) => ({ st with config_files_data := cfd }, Except.error e)
    | (cfd, Option.none) =>
      match process_default_namespace cfd ov with
      | Except.error e => ({ st with config_files_data := cfd }, Except.error e)
      | Except.ok (cfd2, default_namespace) =>
        match argumentParser_parse_args fs st.fromfile_chars params fuel cfd2
            other_args default_namespace with
        | (cfd3, Except.error e) => ({ st with config_files_data := cfd3 }, Except.error e)
        | (cfd3, Except.ok ns) =>
          ({ st with config_files_data := cfd3, args := some ns }, Except.ok ns)

/-- The state of `SingletonDecorator`: the wrapped class and the stored
instance (source field name `instance`, initially None). -/
structure SingletonDecoratorObj where
  klass : Option (List Char) → MyArgumentsObj
  inst : Option MyArgumentsObj

/-- `SingletonDecorator.__call__(*args)`: the first call constructs and stores
the instance from its arguments; every later call returns the stored instance
and ignores its arguments. -/
def singleton_call (s : SingletonDecoratorObj) (arg : Option (List Char)) :
    SingletonDecoratorObj × MyArgumentsObj :=
  match s.inst with
  | Option.none =>
    let i := s.klass arg
    ({ s with inst := some i }, i)
  | some i => (s, i)

/-- `Flags = SingletonDecorator(MyArguments)`. -/
def Flags : SingletonDecoratorObj :=
  { klass := myArguments_init, inst := Option.none }

/-! Concrete filesystems used by the claim scenarios. -/

/-- An empty filesystem: every `open` raises FileNotFoundError. -/
def fsNone : FS := fun _ => Option.none

/-- A filesystem with one config file `cfg` whose content is a yaml mapping
`{p: F}` and not a valid pickle (pickle.load raises UnpicklingError on it). -/
def fsC1 (F : PyObj) : FS := fun p =>
  if p == "cfg" then
    some { pickleResult := Except.error PyExc.unpicklingError
           yamlResult := Except.ok (PyObj.vDict [("p", F)])
           lines := [] }
  else Option.none

/-- A filesystem with one plain-text argument file `cfg.txt` holding the two
lines `--rate` and `0.5`: not a pickle (UnpicklingError), not a yaml mapping
(the scanner fails on the option-like lines). -/
def fsC2 : FS := fun p =>
  if p == "cfg.txt" then
    some { pickleResult := Except.error PyExc.unpicklingError
           yamlResult := Except.error PyExc.scannerError
           lines := ["--rate", "0.5"] }
  else Option.none

/-- A filesystem with one file `cfg.pkl` that is a protocol-0 pickle of the
empty dict: its bytes are the text `(dp0` newline `.`, so `pickle.load`
returns `{}`, `yaml.load` joins the two plain lines into the scalar string
`(dp0 .` (not a mapping), and `splitlines` gives the two lines. -/
def fsC4 : FS := fun p =>
  if p == "cfg.pkl" then
    some { pickleResult := Except.ok (PyObj.vDict [])
           yamlResult := Except.ok (PyObj.vStr "(dp0 .")
           lines := ["(dp0", "."] }
  else Option.none

/-- A filesystem for the C4 witness: `w.yaml` is a yaml mapping `{a: 1}` and
not a valid pickle. -/
def fsW4 : FS := fun p =>
  if p == "w.yaml" then
    some { pickleResult := Except.error PyExc.unpicklingError
           yamlResult := Except.ok (PyObj.vDict [("a", PyObj.vInt 1)])
           lines := [] }
  else Option.none

/-- A filesystem with one empty file `empty`: `pickle.load` on an empty
stream raises EOFError (not in the caught tuple), `yaml.load` of an empty
document returns None. -/
def fsC5 : FS := fun p =>
  if p == "empty" then
    some { pickleResult := Except.error PyExc.eofError
           yamlResult := Except.ok PyObj.vNone
           lines := [] }
  else Option.none

/-- A filesystem for the C5 witness: a file on which pickle raises
UnpicklingError and yaml raises ScannerError, both caught. -/
def fsW5 : FS := fun p =>
  if p == "both" then
    some { pickleResult := Except.error PyExc.unpicklingError
           yamlResult := Except.error PyExc.scannerError
           lines := [] }
  else Option.none

/-- A filesystem with one yaml mapping file `cfg.yaml` holding `{k: 1}`. -/
def fsC6 : FS := fun p =>
  if p == "cfg.yaml" then
    some { pickleResult := Except.error PyExc.unpicklingError
           yamlResult := Except.ok (PyObj.vDict [("k", PyObj.vInt 1)])
           lines := [] }
  else Option.none

/-! Helper lemmas. -/

/-- A string whose `headChar` is `ch` has data starting with `ch`. -/
theorem headChar_ok_data (s : String) (ch : Char) (h : headChar s = Except.ok ch) :
    ∃ tl, s.data = ch :: tl := by
  cases hd : s.data with
  | nil => simp [headChar, hd] at h
  | cons a tl =>
    simp [headChar, hd] at h
    exact ⟨tl, by rw [h]⟩

/-- A list comprehension over `arg[0]` raises IndexError as soon as the list
contains the empty string. -/
theorem filterExcept_empty_token (g : Char → Bool) (args : List String) (h : "" ∈ args) :
    filterExcept (fun a => (headChar a).map g) args = Except.error PyExc.indexError := by
  induction args with
  | nil => cases h
  | cons a rest ih =>
    cases hd : a.data with
    | nil =>
      simp [filterExcept, headChar, hd, Except.map, Bind.bind, Except.bind]
    | cons x xs =>
      have hrest : "" ∈ rest := by
        rcases List.mem_cons.mp h with h1 | h2
        · rw [← h1] at hd
          exact (List.noConfusion (show ([] : List Char) = x :: xs from hd))
        · exact h2
      have hstep : filterExcept (fun a => Except.map g (headChar a)) (a :: rest)
          = Except.map g (headChar a) >>= fun keep =>
              filterExcept (fun a => Except.map g (headChar a)) rest >>= fun rest2 =>
              pure (if keep then a :: rest2 else rest2) := rfl
      have hha : headChar a = Except.ok x := by simp [headChar, hd]
      rw [hstep, hha, ih hrest]
      rfl

/-- A falsy overrides argument leaves `process_default_namespace` on the same
path as an omitted one. -/
theorem process_default_namespace_falsy (cfd : Dict) (ov : Overrides)
    (h : ovTruthy ov = false) :
    process_default_namespace cfd ov = process_default_namespace cfd Overrides.none := by
  unfold process_default_namespace
  rw [h]
  rfl

/-! Claim theorems. -/

/-- C1: precedence law.  For a parameter `p` declared with default `D`, with a
config file referenced by a marker token supplying `F`, a dict supplied as
overrides supplying `O`, and a command-line token pair supplying `C` (each
layer optionally present, selected by `fP`, `oP`, `cP`), the value of `p` in
the mapping returned by `parse_args` is `C` if present, else `O` if present,
else `F` if present, else `D`.  The command-line value token is any string
not itself starting with a marker or option character. -/
theorem C1_precedence_law (D F O : PyObj) (c : String) (ch : Char)
    (hc : headChar c = Except.ok ch) (hat : ch ≠ '@') (hdash : ch ≠ '-')
    (fP oP cP : Bool) :
    (myArguments_parse_args (fsC1 F) [⟨"p", D⟩] 10 (myArguments_init Option.none)
        ((if fP then ["@cfg"] else []) ++ (if cP then ["--p", c] else []))
        (if oP then Overrides.dict [("p", O)] else Overrides.none)).2
      = Except.ok [("p", if cP then PyObj.vStr c else if oP then O else if fP then F else D)] := by
  obtain ⟨tl, htl⟩ := headChar_ok_data c ch hc
  obtain ⟨l⟩ := c
  simp only [String.data] at htl
  subst htl
  rcases fP <;> rcases oP <;> rcases cP <;>
  simp [myArguments_parse_args, partitionArgs, filterExcept, headChar, charIn,
        myArguments_init, configFilesLoop, argumentParser_parse_args,
        read_args_from_files, rafStep, process_dict, try_pickle_parse, try_yml_parse,
        try_json_parse, fsC1, pickleCaught, yamlCaught, optTruthy, pyTruthy, isDict,
        dictUpdateObj, dictUpdate, dictSet, dictGet, applyDefaults, parseTokens,
        looksOptionLike, process_default_namespace, expand_arg_strings_from_file,
        strTail, convert_arg_line_to_args, Except.map, ovTruthy,
        Bind.bind, Except.bind, Pure.pure, Except.pure, beq_iff_eq,
        hat, Ne.symm hat, hdash, Ne.symm hdash]

/-- Witness for C1 at a concrete input: default `"0.1"`, file value `5`,
override value `7`, command-line value `"0.9"`, all three layers present. -/
theorem C1_precedence_law_witness :
    headChar "0.9" = Except.ok '0' ∧ ('0' ≠ '@') ∧ ('0' ≠ '-') ∧
    (myArguments_parse_args (fsC1 (PyObj.vInt 5)) [⟨"p", PyObj.vStr "0.1"⟩] 10
        (myArguments_init Option.none) ["@cfg", "--p", "0.9"]
        (Overrides.dict [("p", PyObj.vInt 7)])).2
      = Except.ok [("p", PyObj.vStr "0.9")] := by
  refine ⟨rfl, by decide, by decide, ?_⟩
  have h := C1_precedence_law (PyObj.vStr "0.1") (PyObj.vInt 5) (PyObj.vInt 7) "0.9" '0'
    rfl (by decide) (by decide) true true true
  simpa using h

/-- C2: the claim says a flag/value pair inside a line-oriented token file
takes effect in the final resolved mapping as if it had appeared inline.  The
code tokenizes, recursively expands and splices the file's lines, but parses
them in an intermediate `ArgumentParser.parse_args` call whose namespace is
discarded: with `rate` declared with default `"0.1"` and `cfg.txt` holding the
lines `--rate` and `0.5`, the resolved value of `rate` is the declared default
`"0.1"`, whereas the same two tokens given inline resolve `rate` to `"0.5"`. -/
theorem C2_text_file_tokens_discarded :
    (myArguments_parse_args fsC2 [⟨"rate", PyObj.vStr "0.1"⟩] 10
        (myArguments_init Option.none) ["@cfg.txt"] Overrides.none).2
      = Except.ok [("rate", PyObj.vStr "0.1")] ∧
    (myArguments_parse_args fsC2 [⟨"rate", PyObj.vStr "0.1"⟩] 10
        (myArguments_init Option.none) ["--rate", "0.5"] Overrides.none).2
      = Except.ok [("rate", PyObj.vStr "0.5")] := ⟨rfl, rfl⟩

/-- C3: the claim says a namespace-shaped overrides object always succeeds,
its pairs becoming new defaults.  The code evaluates
`namespace_or_dict_args._get_kwarg`, and `argparse.Namespace` has no such
attribute (the class provides `_get_kwargs`, and even that is never called),
so `parse_args` with `Namespace(mode="eval")` raises AttributeError. -/
theorem C3_namespace_override_raises_attribute_error :
    (myArguments_parse_args fsNone [⟨"mode", PyObj.vStr "train"⟩] 10
        (myArguments_init Option.none) []
        (Overrides.namespaceObj [("mode", PyObj.vStr "eval")])).2
      = Except.error PyExc.attributeError := rfl

/-- C4 counterexample: `cfg.pkl` is a pickle of the empty dict, so the first
decoder (pickle) yields a mapping, yet `process_dict` does not supply that
mapping as the token's config-file data — the empty dict is falsy, the chain
falls through yaml and json to `None`, and `parse_args` then treats the file
as a line-oriented token file and aborts on its non-option lines. -/
theorem C4_empty_mapping_falls_through :
    try_pickle_parse fsC4 "cfg.pkl" = Except.ok (some (PyObj.vDict [])) ∧
    process_dict fsC4 "cfg.pkl" = Except.ok Option.none ∧
    (myArguments_parse_args fsC4 [] 10 (myArguments_init Option.none)
        ["@cfg.pkl"] Overrides.none).2 = Except.error PyExc.systemExit :=
  ⟨rfl, rfl, rfl⟩

/-- C4 (amended): decodings are attempted in the fixed order pickle, yaml,
json, and the first decoder whose result is truthy ends the chain (yaml
additionally discards non-dict results): a truthy pickle result is returned
unexamined, and a file that yaml decodes to a truthy mapping but pickle fails
on (UnpicklingError, swallowed) is parsed by the yaml decoder. -/
theorem C4_first_truthy_decoder_wins (fs : FS) (p : String) (c : FileContent)
    (hfs : fs p = some c) (v : PyObj) (hv : pyTruthy v = true) :
    (c.pickleResult = Except.ok v → process_dict fs p = Except.ok (some v)) ∧
    (c.pickleResult = Except.error PyExc.unpicklingError → c.yamlResult = Except.ok v →
      isDict v = true → process_dict fs p = Except.ok (some v)) := by
  constructor
  · intro hp
    simp [process_dict, try_pickle_parse, hfs, hp, optTruthy, hv,
          Bind.bind, Except.bind, Pure.pure, Except.pure]
  · intro hp hy hd
    simp [process_dict, try_pickle_parse, try_yml_parse, hfs, hp, hy, hd, optTruthy, hv,
          pickleCaught, Bind.bind, Except.bind, Pure.pure, Except.pure]

/-- Witness for the amended C4: a yaml mapping file that is not a pickle is
decoded by the yaml decoder. -/
theorem C4_first_truthy_decoder_wins_witness :
    process_dict fsW4 "w.yaml" = Except.ok (some (PyObj.vDict [("a", PyObj.vInt 1)])) :=
  (C4_first_truthy_decoder_wins fsW4 "w.yaml"
    { pickleResult := Except.error PyExc.unpicklingError
      yamlResult := Except.ok (PyObj.vDict [("a", PyObj.vInt 1)])
      lines := [] }
    rfl (PyObj.vDict [("a", PyObj.vInt 1)]) rfl).2 rfl rfl rfl

/-- C5 counterexample: on an empty file, `pickle.load` raises EOFError, which
is not in `try_pickle_parse`'s caught tuple `(ValueError, TypeError,
UnpicklingError)`, so the decode-attempt failure propagates out of
`process_dict` and up to the caller of `parse_args`. -/
theorem C5_eoferror_escapes_process_dict :
    process_dict fsC5 "empty" = Except.error PyExc.eofError ∧
    (myArguments_parse_args fsC5 [] 10 (myArguments_init Option.none)
        ["@empty"] Overrides.none).2 = Except.error PyExc.eofError :=
  ⟨rfl, rfl⟩

/-- C5 (amended): decode failures of the anticipated exception classes are
swallowed: whenever every decoder on a file either succeeds or fails with one
of its caught classes (ValueError/TypeError/UnpicklingError for pickle,
ValueError/TypeError/ScannerError for yaml; json never raises on an existing
file), `process_dict` returns without error. -/
theorem C5_caught_failures_swallowed (fs : FS) (p : String) (c : FileContent)
    (hfs : fs p = some c)
    (hp : ∀ e, c.pickleResult = Except.error e → e ∈ pickleCaught)
    (hy : ∀ e, c.yamlResult = Except.error e → e ∈ yamlCaught) :
    ∃ r, process_dict fs p = Except.ok r := by
  obtain ⟨r1, h1⟩ : ∃ r, try_pickle_parse fs p = Except.ok r := by
    cases hpr : c.pickleResult with
    | ok v => exact ⟨some v, by simp [try_pickle_parse, hfs, hpr]⟩
    | error e => exact ⟨Option.none, by simp [try_pickle_parse, hfs, hpr, hp e hpr]⟩
  obtain ⟨r2, h2⟩ : ∃ r, try_yml_parse fs p = Except.ok r := by
    cases hyr : c.yamlResult with
    | ok w =>
      exact ⟨if isDict w then some w else Option.none, by simp [try_yml_parse, hfs, hyr]⟩
    | error e => exact ⟨Option.none, by simp [try_yml_parse, hfs, hyr, hy e hyr]⟩
  have h3 : try_json_parse fs p = Except.ok Option.none := by
    simp [try_json_parse, hfs]
  cases ht1 : optTruthy r1 with
  | true =>
    exact ⟨r1, by simp [process_dict, h1, ht1, Bind.bind, Except.bind, Pure.pure, Except.pure]⟩
  | false =>
    cases ht2 : optTruthy r2 with
    | true =>
      exact ⟨r2, by simp [process_dict, h1, h2, ht1, ht2,
        Bind.bind, Except.bind, Pure.pure, Except.pure]⟩
    | false =>
      exact ⟨Option.none, by simp [process_dict, h1, h2, h3, ht1, ht2,
        Bind.bind, Except.bind, Pure.pure, Except.pure]⟩

/-- Witness for the amended C5: a file on which pickle raises UnpicklingError
and yaml raises ScannerError (both caught) gets through `process_dict`
without an exception. -/
theorem C5_caught_failures_swallowed_witness :
    ∃ r, process_dict fsW5 "both" = Except.ok r :=
  C5_caught_failures_swallowed fsW5 "both"
    { pickleResult := Except.error PyExc.unpicklingError
      yamlResult := Except.error PyExc.scannerError
      lines := [] }
    rfl
    (fun e he => by
      have h2 : (Except.error PyExc.unpicklingError : Except PyExc PyObj)
          = Except.error e := he
      injection h2 with h3
      rw [← h3]
      decide)
    (fun e he => by
      have h2 : (Except.error PyExc.scannerError : Except PyExc PyObj)
          = Except.error e := he
      injection h2 with h3
      rw [← h3]
      decide)

/-- C6 counterexample: with a truthy overrides object that is neither a
namespace nor a dict and a config-file token on the command line, the
TypeError is raised only after the config file has been read and merged: the
returned state's `config_files_data` already holds the file's mapping, so
config-file parsing did occur before the error, contradicting "before any
token or config-file parsing occurs". -/
theorem C6_type_error_after_config_parse :
    myArguments_parse_args fsC6 [] 10 (myArguments_init Option.none) ["@cfg.yaml"]
        (Overrides.other true)
      = ({ fromfile_chars := ['@'], config_files_data := [("k", PyObj.vInt 1)],
           args := Option.none },
         Except.error PyExc.typeError) := rfl

/-- C6 (amended): a truthy overrides argument that is neither a namespace nor
a dict makes `parse_args` raise a TypeError and surface it to the caller, but
only after the invocation's marker-prefixed tokens have been read and merged
into `config_files_data`; the final command-line parse does not occur and the
cache is untouched. -/
theorem C6_override_type_error_after_config_files (fs : FS) (params : List Param)
    (fuel : Nat) (st : MyArgumentsObj) (args : List String)
    (cfgs others : List String) (cfd : Dict)
    (hpart : partitionArgs st.fromfile_chars args = Except.ok (cfgs, others))
    (hloop : configFilesLoop fs st.fromfile_chars params fuel st.config_files_data cfgs
      = (cfd, Option.none)) :
    myArguments_parse_args fs params fuel st args (Overrides.other true)
      = ({ st with config_files_data := cfd }, Except.error PyExc.typeError) := by
  unfold myArguments_parse_args
  simp only [hpart]
  simp only [hloop]
  rfl

/-- Witness for the amended C6 at a concrete input: one yaml config file and
an integer-like truthy overrides object. -/
theorem C6_override_type_error_after_config_files_witness :
    myArguments_parse_args fsC6 [] 9 (myArguments_init Option.none) ["@cfg.yaml"]
        (Overrides.other true)
      = ({ fromfile_chars := ['@'], config_files_data := [("k", PyObj.vInt 1)],
           args := Option.none },
         Except.error PyExc.typeError) :=
  C6_override_type_error_after_config_files fsC6 [] 9 (myArguments_init Option.none)
    ["@cfg.yaml"] ["@cfg.yaml"] [] [("k", PyObj.vInt 1)] rfl rfl

/-- C7: singleton identity.  Two construction calls `Flags(a1)` then
`Flags(a2)` return the very same instance, the second call leaves the stored
state unchanged and ignores its arguments, and the instance's marker
character set reflects only the first call's arguments. -/
theorem C7_singleton_identity (a1 a2 : Option (List Char)) :
    (singleton_call (singleton_call Flags a1).1 a2).2 = (singleton_call Flags a1).2 ∧
    (singleton_call (singleton_call Flags a1).1 a2).1 = (singleton_call Flags a1).1 ∧
    (singleton_call Flags a1).2 = myArguments_init a1 ∧
    ((singleton_call (singleton_call Flags a1).1 a2).2).fromfile_chars = a1.getD ['@'] :=
  ⟨rfl, rfl, rfl, rfl⟩

/-- C8: atomicity of the cache on fatal failure.  Whenever `parse_args`
returns an error — for example a marker token naming a nonexistent path — the
cached resolved-arguments mapping `self.args` of the returned state equals
the one from before the call. -/
theorem C8_error_leaves_cache (fs : FS) (params : List Param) (fuel : Nat)
    (st : MyArgumentsObj) (args : List String) (ov : Overrides) (e : PyExc)
    (h : (myArguments_parse_args fs params fuel st args ov).2 = Except.error e) :
    (myArguments_parse_args fs params fuel st args ov).1.args = st.args := by
  have hc : (myArguments_parse_args fs params fuel st args ov).1.args = st.args ∨
      (∃ ns, (myArguments_parse_args fs params fuel st args ov).2 = Except.ok ns) := by
    unfold myArguments_parse_args
    split
    · exact Or.inl rfl
    · split
      · exact Or.inl rfl
      · split
        · exact Or.inl rfl
        · split
          · exact Or.inl rfl
          · exact Or.inr ⟨_, rfl⟩
  rcases hc with hc | ⟨ns, hns⟩
  · exact hc
  · rw [hns] at h
    exact Except.noConfusion h

/-- Witness for C8: a marker token naming a nonexistent path aborts with
FileNotFoundError and the previously cached result is still the cache. -/
theorem C8_error_leaves_cache_witness :
    (myArguments_parse_args fsNone [] 10
        { fromfile_chars := ['@'], config_files_data := [],
          args := some [("rate", PyObj.vStr "7")] }
        ["@missing"] Overrides.none).2 = Except.error PyExc.fileNotFoundError ∧
    (myArguments_parse_args fsNone [] 10
        { fromfile_chars := ['@'], config_files_data := [],
          args := some [("rate", PyObj.vStr "7")] }
        ["@missing"] Overrides.none).1.args = some [("rate", PyObj.vStr "7")] :=
  ⟨rfl, C8_error_leaves_cache fsNone [] 10
    { fromfile_chars := ['@'], config_files_data := [],
      args := some [("rate", PyObj.vStr "7")] }
    ["@missing"] Overrides.none PyExc.fileNotFoundError rfl⟩

/-- C9: an explicit token list containing the empty string makes `parse_args`
fail with IndexError, because its partition comprehensions index `arg[0]`
unguarded — even though `_read_args_from_files` explicitly guards empty
tokens and passes them through. -/
theorem C9_empty_token_raises_index_error (fs : FS) (params : List Param) (fuel : Nat)
    (st : MyArgumentsObj) (args : List String) (ov : Overrides) (h : "" ∈ args) :
    (myArguments_parse_args fs params fuel st args ov).2 = Except.error PyExc.indexError ∧
    (∀ (cfd : Dict) (n : Nat),
      read_args_from_files fs st.fromfile_chars (n + 1) cfd [""] = (cfd, Except.ok [""])) := by
  constructor
  · have hpa : partitionArgs st.fromfile_chars args = Except.error PyExc.indexError := by
      unfold partitionArgs
      rw [filterExcept_empty_token (fun ch => charIn st.fromfile_chars ch) args h]
      rfl
    simp [myArguments_parse_args, hpa]
  · intro cfd n
    rfl

/-- Witness for C9 at the token list `[""]`. -/
theorem C9_empty_token_raises_index_error_witness :
    (myArguments_parse_args fsNone [] 5 (myArguments_init Option.none) [""]
        Overrides.none).2 = Except.error PyExc.indexError ∧
    read_args_from_files fsNone ['@'] 4 [] [""] = ([], Except.ok [""]) :=
  ⟨(C9_empty_token_raises_index_error fsNone [] 5 (myArguments_init Option.none) [""]
      Overrides.none (List.mem_singleton.mpr rfl)).1,
   (C9_empty_token_raises_index_error fsNone [] 5 (myArguments_init Option.none) [""]
      Overrides.none (List.mem_singleton.mpr rfl)).2 [] 3⟩

/-- C10: a falsy overrides argument of any type — None, empty dict, empty
list, empty string or zero — raises no TypeError and makes `parse_args`
behave exactly as if overrides had been omitted. -/
theorem C10_falsy_overrides_ignored (fs : FS) (params : List Param) (fuel : Nat)
    (st : MyArgumentsObj) (args : List String) (ov : Overrides)
    (h : ovTruthy ov = false) :
    myArguments_parse_args fs params fuel st args ov
      = myArguments_parse_args fs params fuel st args Overrides.none := by
  unfold myArguments_parse_args
  have key : ∀ cfd, process_default_namespace cfd ov
      = process_default_namespace cfd Overrides.none :=
    fun cfd => process_default_namespace_falsy cfd ov h
  simp only [key]

/-- Witness for C10 at the empty dict. -/
theorem C10_falsy_overrides_ignored_witness :
    ovTruthy (Overrides.dict []) = false ∧
    myArguments_parse_args fsNone [] 3 (myArguments_init Option.none) []
        (Overrides.dict [])
      = myArguments_parse_args fsNone [] 3 (myArguments_init Option.none) []
        Overrides.none :=
  ⟨rfl, C10_falsy_overrides_ignored fsNone [] 3 (myArguments_init Option.none) []
    (Overrides.dict []) rfl⟩

end ToolboxFlags
